import Mathlib

/-!
Verification of the Imazalil agent data model (`agents.py`) and the
`DeepChainMap` utility (`tools.py`) against its natural-language
specification.

The embedding is shallow: Python attribute values are modelled by the
inductive `PyVal`; each Python property setter becomes a Lean function
`AgentState → PyVal → AgentState × Option Err` that returns the state as
it stands when the setter finishes (on a raise the state is the state at
the raise site, which in this code is always the unmodified input) and
`Option Err` records a raised exception.  Python numbers (int and float)
are modelled by `ℚ`; `isinstance` checks become matches over `PyVal`.
The error taxonomy of the spec maps onto the concrete Python exception
classes raised by the source: `TypeKind` is `TypeError`, `ValueKind` is
`ValueError`, `StateKind` is `RuntimeError` and `KeyNotFoundKind` is
`KeyError`.
-/

/-- A Python runtime value, restricted to the shapes the agent classes
manipulate: `None`, ints, floats, strings, bools, tuples and deques.
A Python `bool` is a subclass of `int`, so the numeric conversions below
accept it wherever the source checks `isinstance(x, (int, float))` or
`isinstance(x, int)`. -/
inductive PyVal where
  | none : PyVal
  | int : Int → PyVal
  | float : ℚ → PyVal
  | str : String → PyVal
  | bool : Bool → PyVal
  | tuple : List PyVal → PyVal
  | deque : List PyVal → PyVal

/-- Errors raised by the source, named after the Python exception classes.
Spec taxonomy: `typeError` = TypeKind, `valueError` = ValueKind,
`runtimeError` = StateKind ("already set"), `keyError` = KeyNotFoundKind. -/
inductive Err where
  | typeError : Err
  | valueError : Err
  | runtimeError : Err
  | keyError : Err
deriving DecidableEq

/-- `isinstance(v, (int, float))` together with the numeric value.
Python bools pass this check (`True == 1`, `False == 0`). -/
def toNum : PyVal → Option ℚ
  | PyVal.int n => some (n : ℚ)
  | PyVal.float q => some q
  | PyVal.bool b => some (if b then 1 else 0)
  | _ => Option.none

/-- `isinstance(v, int)` together with the integer value (bools included). -/
def toInt : PyVal → Option Int
  | PyVal.int n => some n
  | PyVal.bool b => some (if b then 1 else 0)
  | _ => Option.none

/-- Python truthiness of a `PyVal`. -/
def truthy : PyVal → Bool
  | PyVal.none => false
  | PyVal.int n => n != 0
  | PyVal.float q => q != 0
  | PyVal.str s => s != ""
  | PyVal.bool b => b
  | PyVal.tuple l => !l.isEmpty
  | PyVal.deque l => !l.isEmpty

/-- `v is None`. -/
def isNone : PyVal → Bool
  | PyVal.none => true
  | _ => false

/-- `isinstance(v, tuple)` (the `memory` namedtuple is a tuple). -/
def isTuple : PyVal → Bool
  | PyVal.tuple _ => true
  | _ => false

/-- Python truthiness of a stored optional number (`None`, `0` and `0.0`
are falsy; everything else is truthy). -/
def truthyNum : Option ℚ → Bool
  | Option.none => false
  | some q => q != 0

/-- Python truthiness of the stored `_generation` (`None` and `0` falsy). -/
def truthyGen : Option Int → Bool
  | Option.none => false
  | some n => n != 0

/-- The default memory value `memory(deque(), deque(), deque())` built by
`Agent.__init__` when no `mem` argument is given. -/
def defaultMemory : PyVal :=
  PyVal.tuple [PyVal.deque [], PyVal.deque [], PyVal.deque []]

/-- The state of an `Agent` instance: the slots `_food_reserve`,
`_max_food_reserve`, `_generation`, `_p_breed`, `_kin`, `_kwargs` and
`_memory` of `agents.py`. -/
structure AgentState where
  food_reserve : ℚ
  max_food_reserve : Option ℚ
  generation : Option Int
  p_breed : ℚ
  kin : Option String
  kwargs : List (String × PyVal)
  memory : Option PyVal

/-- Core of the `food_reserve` setter once the `isinstance` check passed
(`q` is the numeric value of the argument).  Mirrors lines 94-113 of
`agents.py`: negative values raise `ValueError`; when the stored
`max_food_reserve` is truthy (set and non-zero) the value is clamped from
above; otherwise it is stored unchanged. -/
def set_food_reserveNum (a : AgentState) (q : ℚ) : AgentState × Option Err :=
  if q < 0 then (a, some Err.valueError)
  else
    match a.max_food_reserve with
    | some m =>
      if m = 0 then ({ a with food_reserve := q }, Option.none)
      else if m ≤ q then ({ a with food_reserve := m }, Option.none)
      else ({ a with food_reserve := q }, Option.none)
    | Option.none => ({ a with food_reserve := q }, Option.none)

/-- The `food_reserve` property setter (`agents.py` lines 94-113). -/
def set_food_reserve (a : AgentState) (v : PyVal) : AgentState × Option Err :=
  match toNum v with
  | some q => set_food_reserveNum a q
  | Option.none => (a, some Err.typeError)

/-- Core of the `max_food_reserve` setter once the `isinstance` check
passed (`agents.py` lines 121-138): values below the current
`food_reserve` raise `ValueError`; a truthy stored `max_food_reserve`
raises `RuntimeError` ("already set"); otherwise the value is stored. -/
def set_max_food_reserveNum (a : AgentState) (q : ℚ) : AgentState × Option Err :=
  if q < a.food_reserve then (a, some Err.valueError)
  else if truthyNum a.max_food_reserve then (a, some Err.runtimeError)
  else ({ a with max_food_reserve := some q }, Option.none)

/-- The `max_food_reserve` property setter (`agents.py` lines 121-138). -/
def set_max_food_reserve (a : AgentState) (v : PyVal) : AgentState × Option Err :=
  match toNum v with
  | some q => set_max_food_reserveNum a q
  | Option.none => (a, some Err.typeError)

/-- Core of the `generation` setter once the `isinstance(int)` check
passed (`agents.py` lines 146-161): negative values raise `ValueError`;
a truthy stored `generation` raises `RuntimeError`; otherwise stored. -/
def set_generationNum (a : AgentState) (n : Int) : AgentState × Option Err :=
  if n < 0 then (a, some Err.valueError)
  else if truthyGen a.generation then (a, some Err.runtimeError)
  else ({ a with generation := some n }, Option.none)

/-- The `generation` property setter (`agents.py` lines 146-161). -/
def set_generation (a : AgentState) (v : PyVal) : AgentState × Option Err :=
  match toInt v with
  | some n => set_generationNum a n
  | Option.none => (a, some Err.typeError)

/-- Core of the `p_breed` setter once the `isinstance(float)` check
passed (`agents.py` lines 169-180): values outside [0, 1] raise
`ValueError`; otherwise stored (no write-once guard). -/
def set_p_breedNum (a : AgentState) (q : ℚ) : AgentState × Option Err :=
  if q < 0 ∨ 1 < q then (a, some Err.valueError)
  else ({ a with p_breed := q }, Option.none)

/-- The `p_breed` property setter (`agents.py` lines 169-180); only a
genuine Python float passes the `isinstance(p_breed, float)` check. -/
def set_p_breed (a : AgentState) (v : PyVal) : AgentState × Option Err :=
  match v with
  | PyVal.float q => set_p_breedNum a q
  | _ => (a, some Err.typeError)

/-- The `kin` property setter (`agents.py` lines 188-199): only a type
check, freely reassignable. -/
def set_kin (a : AgentState) (v : PyVal) : AgentState × Option Err :=
  match v with
  | PyVal.str s => ({ a with kin := some s }, Option.none)
  | _ => (a, some Err.typeError)

/-- The `memory` property setter (`agents.py` lines 207-217): the value
must be a tuple, and the stored memory must still be `None`. -/
def set_memory (a : AgentState) (v : PyVal) : AgentState × Option Err :=
  if !(isTuple v) then (a, some Err.typeError)
  else if a.memory.isSome then (a, some Err.runtimeError)
  else ({ a with memory := some v }, Option.none)

/-- Sequencing of setter calls: a raised exception aborts the remaining
calls and propagates, carrying the state as it stood at the raise. -/
def pseq {α : Type} (r : α × Option Err) (f : α → α × Option Err) :
    α × Option Err :=
  match r with
  | (a, Option.none) => f a
  | (a, some e) => (a, some e)

/-- `Agent.__init__` (`agents.py` lines 42-74), in the state-and-error
style.  `cn` is `self.__class__.__name__` (the dynamic class name used
when no truthy `kin` argument is given).  The slots are first initialised
to their defaults, then the property setters run in source order:
`food_reserve`, `p_breed`, `kin` (argument if truthy, else class name),
`max_food_reserve` (only if the argument is truthy), `generation` (only
if the argument is not `None`), `memory` (argument if not `None`, else
the default empty record). -/
def Agent.initP (cn : String) (food_reserve max_food_reserve generation
    p_breed kin mem : PyVal) (kwargs : List (String × PyVal)) :
    AgentState × Option Err :=
  let a0 : AgentState :=
    { food_reserve := 0, max_food_reserve := Option.none,
      generation := Option.none, p_breed := 1, kin := Option.none,
      kwargs := kwargs, memory := Option.none }
  pseq (pseq (pseq (pseq (pseq
    (set_food_reserve a0 food_reserve)
    (fun a => set_p_breed a p_breed))
    (fun a => if truthy kin then set_kin a kin
              else set_kin a (PyVal.str cn)))
    (fun a => if truthy max_food_reserve then set_max_food_reserve a max_food_reserve
              else (a, Option.none)))
    (fun a => if isNone generation then (a, Option.none)
              else set_generation a generation))
    (fun a => if isNone mem then set_memory a defaultMemory
              else set_memory a mem)

/-- A raised exception escapes the surrounding call: the partially built
object is discarded and only the exception remains. -/
def toExcept {α : Type} (r : α × Option Err) : Except Err α :=
  match r with
  | (a, Option.none) => Except.ok a
  | (_, some e) => Except.error e

/-- Constructing a plain `Agent` (class name `"Agent"`). -/
def Agent.init (food_reserve max_food_reserve generation p_breed kin
    mem : PyVal) (kwargs : List (String × PyVal)) : Except Err AgentState :=
  toExcept (Agent.initP "Agent" food_reserve max_food_reserve generation
    p_breed kin mem kwargs)

/-- `Agent.procreate` (`agents.py` lines 223-250) for the class `Agent`,
in the state-and-error style.  `_procreate_empty` builds
`Agent(food_reserve=food_reserve)`; then for each attribute in
`HEIRSHIP = [max_food_reserve, generation, p_breed, _kwargs]` whose
parent value `is not None`, `setattr` stores it on the offspring through
the corresponding property setter (`generation` as parent value plus 1).
The stored numeric attributes always pass the setters own `isinstance`
checks, hence the `Num` setter cores; `_kwargs` is a plain slot (a dict,
never `None`) written without any setter. -/
def Agent.procreateP (a : AgentState) (food_reserve : PyVal) :
    AgentState × Option Err :=
  pseq (pseq (pseq (pseq
    (Agent.initP "Agent" food_reserve PyVal.none PyVal.none
      (PyVal.float 1) PyVal.none PyVal.none [])
    (fun off => match a.max_food_reserve with
      | some m => set_max_food_reserveNum off m
      | Option.none => (off, Option.none)))
    (fun off => match a.generation with
      | some g => set_generationNum off (g + 1)
      | Option.none => (off, Option.none)))
    (fun off => set_p_breedNum off a.p_breed))
    (fun off => ({ off with kwargs := a.kwargs }, Option.none))

/-- `Agent.procreate` as seen by the caller. -/
def Agent.procreate (a : AgentState) (food_reserve : PyVal) :
    Except Err AgentState :=
  toExcept (Agent.procreateP a food_reserve)

/-- The state of a `Predator` instance: the `Agent` slots plus `_p_eat`. -/
structure PredatorState where
  base : AgentState
  p_eat : ℚ

/-- Run an inherited `Agent` setter on the base part of a `Predator`. -/
def onBase (p : PredatorState) (f : AgentState → AgentState × Option Err) :
    PredatorState × Option Err :=
  match f p.base with
  | (b, e) => ({ p with base := b }, e)

/-- Core of the `p_eat` setter once the `isinstance(float)` check passed
(`agents.py` lines 303-314): values outside [0, 1] raise `ValueError`. -/
def set_p_eatNum (p : PredatorState) (q : ℚ) : PredatorState × Option Err :=
  if q < 0 ∨ 1 < q then (p, some Err.valueError)
  else ({ p with p_eat := q }, Option.none)

/-- The `p_eat` property setter (`agents.py` lines 303-314). -/
def set_p_eat (p : PredatorState) (v : PyVal) : PredatorState × Option Err :=
  match v with
  | PyVal.float q => set_p_eatNum p q
  | _ => (p, some Err.typeError)

/-- The keyword names `Predator.__init__` (and `Prey.__init__`) passes
explicitly in its `super().__init__(...)` call; a caller-supplied keyword
with one of these names lands in the subclass's `**kwargs` and collides
at that call, raising `TypeError` ("got multiple values for keyword
argument") before any slot of the object is written. -/
def agentArgNames : List String :=
  ["food_reserve", "max_food_reserve", "generation", "p_breed", "kin"]

/-- `Predator.__init__` (`agents.py` lines 268-283).  `cn` is the
dynamic class name forwarded to the `kin` argument of the base
initializer.  Keywords not consumed by the signature travel in `kwargs`;
a `"mem"` entry among them binds the `mem` parameter of
`Agent.__init__`, the rest is stored verbatim as `_kwargs`, and an entry
colliding with an explicitly passed keyword raises `TypeError`.
After the base initializer, `_p_eat` is initialised to `1.0` and the
`p_eat` setter runs on the `p_eat` argument. -/
def Predator.initCore (cn : String) (food_reserve p_eat max_food_reserve
    p_breed generation : PyVal) (kwargs : List (String × PyVal)) :
    Except Err PredatorState :=
  if kwargs.any (fun p => agentArgNames.contains p.1) then
    Except.error Err.typeError
  else
    match Agent.initP cn food_reserve max_food_reserve generation p_breed
      (PyVal.str cn) ((kwargs.lookup "mem").getD PyVal.none)
      (kwargs.filter (fun p => decide (p.1 ≠ "mem"))) with
    | (_, some e) => Except.error e
    | (base, Option.none) =>
      toExcept (set_p_eat { base := base, p_eat := 1 } p_eat)

/-- Constructing a plain `Predator` (class name `"Predator"`). -/
def Predator.init (food_reserve p_eat max_food_reserve p_breed
    generation : PyVal) (kwargs : List (String × PyVal)) :
    Except Err PredatorState :=
  Predator.initCore "Predator" food_reserve p_eat max_food_reserve p_breed
    generation kwargs

/-- `Agent.procreate` invoked on a plain `Predator` (`agents.py` lines
223-250 with `cls = Predator`): `_procreate_empty` builds
`Predator(food_reserve=food_reserve)` with all other arguments at their
defaults, then the attributes in
`Predator.HEIRSHIP = [max_food_reserve, generation, p_breed, _kwargs, p_eat]`
whose parent value `is not None` are stored on the offspring in that
order (`generation` as parent value plus 1, `_kwargs` as a plain slot
write). -/
def Predator.procreate (p : PredatorState) (food_reserve : PyVal) :
    Except Err PredatorState :=
  match Predator.initCore "Predator" food_reserve (PyVal.float 1)
    PyVal.none (PyVal.float 1) PyVal.none [] with
  | Except.error e => Except.error e
  | Except.ok off =>
    toExcept (pseq (pseq (pseq (pseq (pseq
      ((off, Option.none) : PredatorState × Option Err)
      (fun o => match p.base.max_food_reserve with
        | some m => onBase o (fun b => set_max_food_reserveNum b m)
        | Option.none => (o, Option.none)))
      (fun o => match p.base.generation with
        | some g => onBase o (fun b => set_generationNum b (g + 1))
        | Option.none => (o, Option.none)))
      (fun o => onBase o (fun b => set_p_breedNum b p.base.p_breed)))
      (fun o => ({ o with base := { o.base with kwargs := p.base.kwargs } },
                 Option.none)))
      (fun o => set_p_eatNum o p.p_eat))

/-- The state of a `Prey` instance: the `Agent` slots plus `_p_flee` and
`_got_eaten`. -/
structure PreyState where
  base : AgentState
  p_flee : ℚ
  got_eaten : Bool

/-- Core of the `p_flee` setter once the `isinstance(float)` check
passed (`agents.py` lines 372-383): values outside [0, 1] raise
`ValueError`. -/
def set_p_fleeNum (p : PreyState) (q : ℚ) : PreyState × Option Err :=
  if q < 0 ∨ 1 < q then (p, some Err.valueError)
  else ({ p with p_flee := q }, Option.none)

/-- The `p_flee` property setter (`agents.py` lines 372-383). -/
def set_p_flee (p : PreyState) (v : PyVal) : PreyState × Option Err :=
  match v with
  | PyVal.float q => set_p_fleeNum p q
  | _ => (p, some Err.typeError)

/-- The `got_eaten` property setter (`agents.py` lines 390-398): only an
`isinstance(bool)` check. -/
def set_got_eaten (p : PreyState) (v : PyVal) : PreyState × Option Err :=
  match v with
  | PyVal.bool b => ({ p with got_eaten := b }, Option.none)
  | _ => (p, some Err.typeError)

/-- `Prey.__init__` (`agents.py` lines 333-350): like the predator
initializer, but the extra slots are `_p_flee = 0.0` and
`_got_eaten = False`, and the `p_flee` setter runs only when the
`p_flee` argument `is not None`. -/
def Prey.initCore (cn : String) (food_reserve p_breed max_food_reserve
    p_flee generation : PyVal) (kwargs : List (String × PyVal)) :
    Except Err PreyState :=
  if kwargs.any (fun p => agentArgNames.contains p.1) then
    Except.error Err.typeError
  else
    match Agent.initP cn food_reserve max_food_reserve generation p_breed
      (PyVal.str cn) ((kwargs.lookup "mem").getD PyVal.none)
      (kwargs.filter (fun p => decide (p.1 ≠ "mem"))) with
    | (_, some e) => Except.error e
    | (base, Option.none) =>
      let p0 : PreyState := { base := base, p_flee := 0, got_eaten := false }
      if isNone p_flee then Except.ok p0
      else toExcept (set_p_flee p0 p_flee)

/-- Constructing a plain `Prey` (class name `"Prey"`). -/
def Prey.init (food_reserve p_breed max_food_reserve p_flee
    generation : PyVal) (kwargs : List (String × PyVal)) :
    Except Err PreyState :=
  Prey.initCore "Prey" food_reserve p_breed max_food_reserve p_flee
    generation kwargs

/-- `rd.choice([-1, 0, 1])` with the drawn index made explicit. -/
def choice3 (i : Fin 3) : Int :=
  if i.val = 0 then -1 else if i.val = 1 then 0 else 1

/-- `rd.choice([-1, 1])` with the drawn index made explicit. -/
def choice2 (i : Fin 2) : Int :=
  if i.val = 0 then -1 else 1

/-- `_generate_orient` (`agents.py` lines 470-476 and 547-553, identical
bodies) with the three random draws made explicit: `c1` indexes
`rd.choice([-1, 0, 1])` for the first axis, `c2` indexes
`rd.choice([-1, 1])` for the second axis (used only when the first draw
is 0, else the second axis is fixed at 0), and `sw` tells whether
`np.random.shuffle` swapped the two positions of the 2-element list
(each of the two permutations of a 2-element list has probability 1/2). -/
def generate_orient (c1 : Fin 3) (c2 : Fin 2) (sw : Bool) : Int × Int :=
  let y := choice3 c1
  let x := if y = 0 then choice2 c2 else 0
  if sw then (x, y) else (y, x)

/-- The state of an `OrientedPredator`: the `Predator` slots plus
`_orient`. -/
structure OrientedPredatorState where
  pred : PredatorState
  orient : PyVal

/-- The `orient` property setter of `OrientedPredator` (`agents.py`
lines 456-467): `None` triggers `_generate_orient` (which stores the
drawn direction back through this setter as a 2-tuple); a non-tuple or a
tuple longer than 2 raises `TypeError`; any other tuple is stored
unchecked. -/
def OrientedPredator.set_orient (a : OrientedPredatorState) (v : PyVal)
    (c1 : Fin 3) (c2 : Fin 2) (sw : Bool) :
    OrientedPredatorState × Option Err :=
  match v with
  | PyVal.none =>
    let o := generate_orient c1 c2 sw
    ({ a with orient := PyVal.tuple [PyVal.int o.1, PyVal.int o.2] },
     Option.none)
  | PyVal.tuple l =>
    if l.length > 2 then (a, some Err.typeError)
    else ({ a with orient := PyVal.tuple l }, Option.none)
  | _ => (a, some Err.typeError)

/-- The keyword names `OrientedPredator.__init__` passes explicitly in
its `super().__init__(...)` call to `Predator.__init__`. -/
def predatorArgNames : List String :=
  ["food_reserve", "max_food_reserve", "generation", "p_breed", "p_eat"]

/-- `OrientedPredator.__init__` (`agents.py` lines 422-438): the
`super()` call forwards everything except `orient` to
`Predator.__init__` (without a `kin` argument, so the dynamic class name
`"OrientedPredator"` reaches the base initializer); then `_orient` is
initialised to `(0, 0)` and the `orient` setter runs on the `orient`
argument, drawing a random direction when it is `None`. -/
def OrientedPredator.init (food_reserve p_breed max_food_reserve p_eat
    generation orient : PyVal) (kwargs : List (String × PyVal))
    (c1 : Fin 3) (c2 : Fin 2) (sw : Bool) :
    Except Err OrientedPredatorState :=
  if kwargs.any (fun p => predatorArgNames.contains p.1) then
    Except.error Err.typeError
  else
    match Predator.initCore "OrientedPredator" food_reserve p_eat
      max_food_reserve p_breed generation kwargs with
    | Except.error e => Except.error e
    | Except.ok pred =>
      toExcept (OrientedPredator.set_orient
        { pred := pred, orient := PyVal.tuple [PyVal.int 0, PyVal.int 0] }
        orient c1 c2 sw)

/-- The state of an `OrientedPrey`: the `Prey` slots plus `_orient`. -/
structure OrientedPreyState where
  prey : PreyState
  orient : PyVal

/-- The `orient` property setter of `OrientedPrey` (`agents.py` lines
533-544, identical to the predator variant). -/
def OrientedPrey.set_orient (a : OrientedPreyState) (v : PyVal)
    (c1 : Fin 3) (c2 : Fin 2) (sw : Bool) : OrientedPreyState × Option Err :=
  match v with
  | PyVal.none =>
    let o := generate_orient c1 c2 sw
    ({ a with orient := PyVal.tuple [PyVal.int o.1, PyVal.int o.2] },
     Option.none)
  | PyVal.tuple l =>
    if l.length > 2 then (a, some Err.typeError)
    else ({ a with orient := PyVal.tuple l }, Option.none)
  | _ => (a, some Err.typeError)

/-- The keyword names `OrientedPrey.__init__` passes explicitly in its
`super().__init__(...)` call to `Prey.__init__`. -/
def preyArgNames : List String :=
  ["food_reserve", "max_food_reserve", "generation", "p_breed", "p_flee"]

/-- `OrientedPrey.__init__` (`agents.py` lines 499-515), analogous to
`OrientedPredator.__init__`. -/
def OrientedPrey.init (food_reserve p_breed max_food_reserve p_flee
    generation orient : PyVal) (kwargs : List (String × PyVal))
    (c1 : Fin 3) (c2 : Fin 2) (sw : Bool) : Except Err OrientedPreyState :=
  if kwargs.any (fun p => preyArgNames.contains p.1) then
    Except.error Err.typeError
  else
    match Prey.initCore "OrientedPrey" food_reserve p_breed
      max_food_reserve p_flee generation kwargs with
    | Except.error e => Except.error e
    | Except.ok prey =>
      toExcept (OrientedPrey.set_orient
        { prey := prey, orient := PyVal.tuple [PyVal.int 0, PyVal.int 0] }
        orient c1 c2 sw)

/-- `key in mapping` for one layer of a `DeepChainMap` (a Python dict,
modelled as an association list in insertion order). -/
def layerHas {K V : Type} [DecidableEq K] (m : List (K × V)) (k : K) : Bool :=
  m.any (fun p => decide (p.1 = k))

/-- `mapping[key] = value` on a layer that already contains `key`:
the stored value is replaced in place. -/
def layerSet {K V : Type} [DecidableEq K] (m : List (K × V)) (k : K)
    (v : V) : List (K × V) :=
  m.map (fun p => if p.1 = k then (k, v) else p)

/-- `del mapping[key]` on a layer that contains `key`. -/
def layerDel {K V : Type} [DecidableEq K] (m : List (K × V)) (k : K) :
    List (K × V) :=
  m.filter (fun p => decide (p.1 ≠ k))

/-- The loop of `DeepChainMap.__setitem__` (`tools.py` lines 57-61):
update the key in the first layer that contains it; `Option.none` when no
layer does. -/
def setFirst {K V : Type} [DecidableEq K] :
    List (List (K × V)) → K → V → Option (List (List (K × V)))
  | [], _, _ => Option.none
  | m :: rest, k, v =>
    if layerHas m k then some (layerSet m k v :: rest)
    else (setFirst rest k v).map (fun r => m :: r)

/-- `DeepChainMap.__setitem__` (`tools.py` lines 57-62): write into the
first layer holding the key, else insert into `maps[0]` (a `ChainMap`
always holds at least one map, so the empty case below is unreachable on
real instances; inserting into a dict appends in insertion order). -/
def dcmSetItem {K V : Type} [DecidableEq K] (ms : List (List (K × V)))
    (k : K) (v : V) : List (List (K × V)) :=
  match setFirst ms k v with
  | some res => res
  | Option.none =>
    match ms with
    | [] => []
    | m :: rest => (m ++ [(k, v)]) :: rest

/-- The loop of `DeepChainMap.__delitem__` (`tools.py` lines 64-68):
delete the key from the first layer that contains it. -/
def delFirst {K V : Type} [DecidableEq K] :
    List (List (K × V)) → K → Option (List (List (K × V)))
  | [], _ => Option.none
  | m :: rest, k =>
    if layerHas m k then some (layerDel m k :: rest)
    else (delFirst rest k).map (fun r => m :: r)

/-- `DeepChainMap.__delitem__` (`tools.py` lines 64-69): delete from the
first layer holding the key; raise `KeyError` (leaving every layer
untouched) when no layer holds it. -/
def dcmDelItem {K V : Type} [DecidableEq K] (ms : List (List (K × V)))
    (k : K) : List (List (K × V)) × Option Err :=
  match delFirst ms k with
  | some res => (res, Option.none)
  | Option.none => (ms, some Err.keyError)

/-- One mutation of an `Agent` through its property setters. -/
inductive AgentOp where
  | setFood : PyVal → AgentOp
  | setMax : PyVal → AgentOp
  | setGen : PyVal → AgentOp
  | setPBreed : PyVal → AgentOp
  | setKin : PyVal → AgentOp
  | setMemory : PyVal → AgentOp

/-- Run one mutation. -/
def applyOp (a : AgentState) : AgentOp → AgentState × Option Err
  | AgentOp.setFood v => set_food_reserve a v
  | AgentOp.setMax v => set_max_food_reserve a v
  | AgentOp.setGen v => set_generation a v
  | AgentOp.setPBreed v => set_p_breed a v
  | AgentOp.setKin v => set_kin a v
  | AgentOp.setMemory v => set_memory a v

/-- The `Agent` states producible by the public interface: a successful
construction, followed by any successful setter writes, with offspring
of a successful `procreate` also reachable. -/
inductive Reachable : AgentState → Prop where
  | init (cn : String) (fr mfr gen pb kin mem : PyVal)
      (kw : List (String × PyVal)) :
      (Agent.initP cn fr mfr gen pb kin mem kw).2 = Option.none →
      Reachable (Agent.initP cn fr mfr gen pb kin mem kw).1
  | step {a : AgentState} (op : AgentOp) : Reachable a →
      (applyOp a op).2 = Option.none → Reachable (applyOp a op).1
  | proc {a : AgentState} (fr : PyVal) : Reachable a →
      (Agent.procreateP a fr).2 = Option.none →
      Reachable (Agent.procreateP a fr).1

/-- The food-reserve invariant the code actually maintains: the reserve
is never negative, and whenever a nonzero ceiling is stored the reserve
is within it (a ceiling stored as 0 is falsy for the clamping check and
is not enforced). -/
def FoodInv (a : AgentState) : Prop :=
  0 ≤ a.food_reserve ∧
    ∀ m, a.max_food_reserve = some m → 0 ≤ m ∧ (m ≠ 0 → a.food_reserve ≤ m)

/-- Atomicity of one setter run: on success the final state satisfies
`ok` (used below to say that exactly the target field was replaced); on a
raise the final state is the untouched original. -/
def SetterAtomic {σ : Type} (run : σ × Option Err) (orig : σ)
    (ok : σ → Prop) : Prop :=
  match run with
  | (s, Option.none) => ok s
  | (s, some _) => s = orig

/-! ## Theorems -/

/-- C7: every outcome of the orientation-generation draws is a 2-tuple
with exactly one component in `{-1, 1}` and the other component 0, and
with the first axis drawn uniformly from `{-1, 0, 1}`, the second
uniformly from `{-1, 1}` and a uniform swap of positions (12 equally
likely elementary outcomes), each of the four directions `(1,0)`,
`(-1,0)`, `(0,1)`, `(0,-1)` results with probability exactly 1/4. -/
theorem generate_orient_uniform :
    (∀ (c1 : Fin 3) (c2 : Fin 2) (sw : Bool),
      ((generate_orient c1 c2 sw).1 = 0 ∧
        ((generate_orient c1 c2 sw).2 = 1 ∨ (generate_orient c1 c2 sw).2 = -1)) ∨
      ((generate_orient c1 c2 sw).2 = 0 ∧
        ((generate_orient c1 c2 sw).1 = 1 ∨ (generate_orient c1 c2 sw).1 = -1))) ∧
    (((Finset.univ.filter
        (fun t : Fin 3 × Fin 2 × Bool =>
          generate_orient t.1 t.2.1 t.2.2 = (1, 0))).card : ℚ) / 12 = 1 / 4) ∧
    (((Finset.univ.filter
        (fun t : Fin 3 × Fin 2 × Bool =>
          generate_orient t.1 t.2.1 t.2.2 = (-1, 0))).card : ℚ) / 12 = 1 / 4) ∧
    (((Finset.univ.filter
        (fun t : Fin 3 × Fin 2 × Bool =>
          generate_orient t.1 t.2.1 t.2.2 = (0, 1))).card : ℚ) / 12 = 1 / 4) ∧
    (((Finset.univ.filter
        (fun t : Fin 3 × Fin 2 × Bool =>
          generate_orient t.1 t.2.1 t.2.2 = (0, -1))).card : ℚ) / 12 = 1 / 4) := by
  refine ⟨by decide, ?_, ?_, ?_, ?_⟩ <;>
    · rw [show (Finset.univ.filter _).card = 3 from by decide]
      norm_num

/-- When the earlier layers miss the key and layer `m` holds it, the
`__setitem__` loop stops at `m`. -/
theorem setFirst_found {K V : Type} [DecidableEq K]
    (pre post : List (List (K × V))) (m : List (K × V)) (k : K) (v : V)
    (hpre : ∀ l ∈ pre, layerHas l k = false) (hm : layerHas m k = true) :
    setFirst (pre ++ m :: post) k v = some (pre ++ layerSet m k v :: post) := by
  induction pre with
  | nil => simp [setFirst, hm]
  | cons p rest ih =>
    have hp : layerHas p k = false := hpre p (List.mem_cons_self p rest)
    have := ih (fun l hl => hpre l (List.mem_cons_of_mem p hl))
    simp [setFirst, hp, this]

/-- When no layer holds the key the `__setitem__` loop runs through. -/
theorem setFirst_missing {K V : Type} [DecidableEq K]
    (ms : List (List (K × V))) (k : K) (v : V)
    (h : ∀ l ∈ ms, layerHas l k = false) :
    setFirst ms k v = Option.none := by
  induction ms with
  | nil => rfl
  | cons m rest ih =>
    have hm : layerHas m k = false := h m (List.mem_cons_self m rest)
    have := ih (fun l hl => h l (List.mem_cons_of_mem m hl))
    simp [setFirst, hm, this]

/-- When the earlier layers miss the key and layer `m` holds it, the
`__delitem__` loop stops at `m`. -/
theorem delFirst_found {K V : Type} [DecidableEq K]
    (pre post : List (List (K × V))) (m : List (K × V)) (k : K)
    (hpre : ∀ l ∈ pre, layerHas l k = false) (hm : layerHas m k = true) :
    delFirst (pre ++ m :: post) k = some (pre ++ layerDel m k :: post) := by
  induction pre with
  | nil => simp [delFirst, hm]
  | cons p rest ih =>
    have hp : layerHas p k = false := hpre p (List.mem_cons_self p rest)
    have := ih (fun l hl => hpre l (List.mem_cons_of_mem p hl))
    simp [delFirst, hp, this]

/-- When no layer holds the key the `__delitem__` loop runs through. -/
theorem delFirst_missing {K V : Type} [DecidableEq K]
    (ms : List (List (K × V))) (k : K)
    (h : ∀ l ∈ ms, layerHas l k = false) :
    delFirst ms k = Option.none := by
  induction ms with
  | nil => rfl
  | cons m rest ih =>
    have hm : layerHas m k = false := h m (List.mem_cons_self m rest)
    have := ih (fun l hl => h l (List.mem_cons_of_mem m hl))
    simp [delFirst, hm, this]

/-- C9: for every `DeepChainMap`, writing a key found in some layer
updates it in the first layer (in search order) holding it and touches no
other layer; writing a key present in no layer inserts it into the
first/innermost layer; deleting a key removes it from the first layer
holding it; deleting a key present in no layer raises `KeyError`
(`KeyNotFoundKind`) and leaves every layer unchanged. -/
theorem dcm_first_layer_semantics {K V : Type} [DecidableEq K] :
    (∀ (pre post : List (List (K × V))) (m : List (K × V)) (k : K) (v : V),
      (∀ l ∈ pre, layerHas l k = false) → layerHas m k = true →
      dcmSetItem (pre ++ m :: post) k v = pre ++ layerSet m k v :: post) ∧
    (∀ (m : List (K × V)) (rest : List (List (K × V))) (k : K) (v : V),
      (∀ l ∈ m :: rest, layerHas l k = false) →
      dcmSetItem (m :: rest) k v = (m ++ [(k, v)]) :: rest) ∧
    (∀ (pre post : List (List (K × V))) (m : List (K × V)) (k : K),
      (∀ l ∈ pre, layerHas l k = false) → layerHas m k = true →
      dcmDelItem (pre ++ m :: post) k = (pre ++ layerDel m k :: post, Option.none)) ∧
    (∀ (ms : List (List (K × V))) (k : K),
      (∀ l ∈ ms, layerHas l k = false) →
      dcmDelItem ms k = (ms, some Err.keyError)) := by
  refine ⟨?_, ?_, ?_, ?_⟩
  · intro pre post m k v hpre hm
    simp [dcmSetItem, setFirst_found pre post m k v hpre hm]
  · intro m rest k v h
    simp [dcmSetItem, setFirst_missing (m :: rest) k v h]
  · intro pre post m k hpre hm
    simp [dcmDelItem, delFirst_found pre post m k hpre hm]
  · intro ms k h
    simp [dcmDelItem, delFirst_missing ms k h]

/-- C9 witness: the four behaviors at a concrete two-layer chain over
string keys and natural values. -/
theorem dcm_first_layer_semantics_w :
    dcmSetItem [[("a", (1 : Nat)), ("b", 2)], [("b", 9), ("c", 3)]] "b" 7 =
      [layerSet [("a", 1), ("b", 2)] "b" 7, [("b", 9), ("c", 3)]] ∧
    dcmSetItem [[("a", (1 : Nat))], [("c", 3)]] "z" 7 =
      [[("a", 1), ("z", 7)], [("c", 3)]] ∧
    dcmDelItem [[("a", (1 : Nat))], [("c", 3)]] "c" =
      ([[("a", 1)], layerDel [("c", 3)] "c"], Option.none) ∧
    dcmDelItem [[("a", (1 : Nat))], [("c", 3)]] "z" =
      ([[("a", 1)], [("c", 3)]], some Err.keyError) := by
  have h := @dcm_first_layer_semantics String Nat _
  refine ⟨?_, ?_, ?_, ?_⟩
  · have := h.1 [] [[("b", 9), ("c", 3)]] [("a", 1), ("b", 2)] "b" 7
      (by decide) (by decide)
    simpa using this
  · have := h.2.1 [("a", 1)] [[("c", 3)]] "z" 7 (by decide)
    simpa using this
  · have := h.2.2.1 [[("a", 1)]] [] [("c", 3)] "c"
      (by decide) (by decide)
    simpa using this
  · exact h.2.2.2 [[("a", 1)], [("c", 3)]] "z" (by decide)

/-- A leftover keyword dictionary containing `"kin"` collides with the
`kin=...` keyword that `Predator.__init__` and `Prey.__init__` pass
explicitly to `Agent.__init__`. -/
theorem any_agentArg_of_kin (kw : List (String × PyVal))
    (h : kw.any (fun p => p.1 == "kin") = true) :
    kw.any (fun p => agentArgNames.contains p.1) = true := by
  rcases List.any_eq_true.mp h with ⟨p, hp, hpk⟩
  refine List.any_eq_true.mpr ⟨p, hp, ?_⟩
  have hk : p.1 = "kin" := by simpa using hpk
  rw [hk]
  decide

/-- C10: constructing any of the four concrete subtypes while passing an
explicit `kin` keyword fails with a `TypeError`: the caller's `kin`
travels through the subclass's `**kwargs` and collides with the `kin`
the subclass itself supplies in its `super().__init__(...)` call, so
`kin` can never be overridden at construction of these subtypes. -/
theorem subtype_kin_kwarg_rejected (kw : List (String × PyVal))
    (h : kw.any (fun p => p.1 == "kin") = true)
    (fr pe pb pf mfr gen orient : PyVal)
    (c1 : Fin 3) (c2 : Fin 2) (sw : Bool) :
    Predator.init fr pe mfr pb gen kw = Except.error Err.typeError ∧
    Prey.init fr pb mfr pf gen kw = Except.error Err.typeError ∧
    OrientedPredator.init fr pb mfr pe gen orient kw c1 c2 sw =
      Except.error Err.typeError ∧
    OrientedPrey.init fr pb mfr pf gen orient kw c1 c2 sw =
      Except.error Err.typeError := by
  have hA := any_agentArg_of_kin kw h
  refine ⟨?_, ?_, ?_, ?_⟩
  · unfold Predator.init Predator.initCore
    rw [if_pos hA]
  · unfold Prey.init Prey.initCore
    rw [if_pos hA]
  · cases hP : kw.any (fun p => predatorArgNames.contains p.1) with
    | true =>
      unfold OrientedPredator.init
      rw [if_pos hP]
    | false =>
      unfold OrientedPredator.init Predator.initCore
      rw [if_neg (by rw [hP]; exact Bool.false_ne_true), if_pos hA]
  · cases hP : kw.any (fun p => preyArgNames.contains p.1) with
    | true =>
      unfold OrientedPrey.init
      rw [if_pos hP]
    | false =>
      unfold OrientedPrey.init Prey.initCore
      rw [if_neg (by rw [hP]; exact Bool.false_ne_true), if_pos hA]

/-- C10 witness: passing `kin="X"` to each subtype constructor fails
with a `TypeError`. -/
theorem subtype_kin_kwarg_rejected_w :
    Predator.init (PyVal.int 3) (PyVal.float 1) PyVal.none (PyVal.float 1)
      PyVal.none [("kin", PyVal.str "X")] = Except.error Err.typeError ∧
    Prey.init (PyVal.int 3) (PyVal.float 1) PyVal.none (PyVal.float 0)
      PyVal.none [("kin", PyVal.str "X")] = Except.error Err.typeError ∧
    OrientedPredator.init (PyVal.int 3) (PyVal.float 1) PyVal.none
      (PyVal.float 1) PyVal.none PyVal.none [("kin", PyVal.str "X")]
      0 0 false = Except.error Err.typeError ∧
    OrientedPrey.init (PyVal.int 3) (PyVal.float 1) PyVal.none
      (PyVal.float 0) PyVal.none PyVal.none [("kin", PyVal.str "X")]
      0 0 false = Except.error Err.typeError :=
  subtype_kin_kwarg_rejected [("kin", PyVal.str "X")] (by decide)
    (PyVal.int 3) (PyVal.float 1) (PyVal.float 1) (PyVal.float 0)
    PyVal.none PyVal.none PyVal.none 0 0 false

/-- C1 counterexample: a parent constructed with `p_breed=0.0` (the
float type's falsy value) procreates successfully, and the offspring's
`p_breed` is the parent's 0.0, not the constructor default 1.0 — the
source guards the HEIRSHIP copy with `is not None`, not with
truthiness. -/
theorem procreate_copies_falsy_p_breed :
    (Agent.initP "Agent" (PyVal.int 5) PyVal.none PyVal.none
      (PyVal.float 0) PyVal.none PyVal.none []).2 = Option.none ∧
    (Agent.initP "Agent" (PyVal.int 5) PyVal.none PyVal.none
      (PyVal.float 0) PyVal.none PyVal.none []).1.p_breed = 0 ∧
    (Agent.procreateP (Agent.initP "Agent" (PyVal.int 5) PyVal.none
      PyVal.none (PyVal.float 0) PyVal.none PyVal.none []).1
      (PyVal.int 2)).2 = Option.none ∧
    (Agent.procreateP (Agent.initP "Agent" (PyVal.int 5) PyVal.none
      PyVal.none (PyVal.float 0) PyVal.none PyVal.none []).1
      (PyVal.int 2)).1.p_breed = 0 ∧
    ¬ (Agent.procreateP (Agent.initP "Agent" (PyVal.int 5) PyVal.none
      PyVal.none (PyVal.float 0) PyVal.none PyVal.none []).1
      (PyVal.int 2)).1.p_breed = 1 := by
  decide

/-- C2 counterexample: construct with `food_reserve=0`, successfully set
`max_food_reserve=0`, then successfully set `food_reserve=5`: the stored
reserve 5 now exceeds the set ceiling 0, because the clamping branch
tests the stored ceiling for truthiness and 0 is falsy. -/
theorem food_invariant_violated_at_zero_ceiling :
    (Agent.initP "Agent" (PyVal.int 0) PyVal.none PyVal.none
      (PyVal.float 1) PyVal.none PyVal.none []).2 = Option.none ∧
    (set_max_food_reserve (Agent.initP "Agent" (PyVal.int 0) PyVal.none
      PyVal.none (PyVal.float 1) PyVal.none PyVal.none []).1
      (PyVal.int 0)).2 = Option.none ∧
    (set_food_reserve (set_max_food_reserve (Agent.initP "Agent"
      (PyVal.int 0) PyVal.none PyVal.none (PyVal.float 1) PyVal.none
      PyVal.none []).1 (PyVal.int 0)).1 (PyVal.int 5)).2 = Option.none ∧
    (set_food_reserve (set_max_food_reserve (Agent.initP "Agent"
      (PyVal.int 0) PyVal.none PyVal.none (PyVal.float 1) PyVal.none
      PyVal.none []).1 (PyVal.int 0)).1 (PyVal.int 5)).1.max_food_reserve
      = some 0 ∧
    ¬ (set_food_reserve (set_max_food_reserve (Agent.initP "Agent"
      (PyVal.int 0) PyVal.none PyVal.none (PyVal.float 1) PyVal.none
      PyVal.none []).1 (PyVal.int 0)).1 (PyVal.int 5)).1.food_reserve
      ≤ 0 := by
  decide

/-- C3 counterexample: on an agent whose `max_food_reserve` is already
set to 5, a second assignment with a wrong-type value fails with
`TypeError` (TypeKind), not with `RuntimeError` (StateKind): the type
check runs before the "already set" check. -/
theorem second_max_set_wrong_type_not_statekind :
    (Agent.initP "Agent" (PyVal.int 2) (PyVal.int 5) PyVal.none
      (PyVal.float 1) PyVal.none PyVal.none []).2 = Option.none ∧
    (Agent.initP "Agent" (PyVal.int 2) (PyVal.int 5) PyVal.none
      (PyVal.float 1) PyVal.none PyVal.none []).1.max_food_reserve
      = some 5 ∧
    (set_max_food_reserve (Agent.initP "Agent" (PyVal.int 2)
      (PyVal.int 5) PyVal.none (PyVal.float 1) PyVal.none PyVal.none
      []).1 (PyVal.str "x")).2 = some Err.typeError ∧
    ¬ Err.typeError = Err.runtimeError := by
  decide

/-- C5 counterexample: an agent whose `max_food_reserve` has been
successfully set to 0 accepts `food_reserve=5` and stores 5, not the
ceiling 0: the clamp is skipped because the stored ceiling 0 is falsy. -/
theorem clamp_skipped_at_zero_ceiling :
    (set_max_food_reserve (Agent.initP "Agent" (PyVal.int 0) PyVal.none
      PyVal.none (PyVal.float 1) PyVal.none PyVal.none []).1
      (PyVal.int 0)).1.max_food_reserve = some 0 ∧
    (set_food_reserve (set_max_food_reserve (Agent.initP "Agent"
      (PyVal.int 0) PyVal.none PyVal.none (PyVal.float 1) PyVal.none
      PyVal.none []).1 (PyVal.int 0)).1 (PyVal.int 5)).2 = Option.none ∧
    (set_food_reserve (set_max_food_reserve (Agent.initP "Agent"
      (PyVal.int 0) PyVal.none PyVal.none (PyVal.float 1) PyVal.none
      PyVal.none []).1 (PyVal.int 0)).1 (PyVal.int 5)).1.food_reserve
      = 5 ∧
    ¬ (set_food_reserve (set_max_food_reserve (Agent.initP "Agent"
      (PyVal.int 0) PyVal.none PyVal.none (PyVal.float 1) PyVal.none
      PyVal.none []).1 (PyVal.int 0)).1 (PyVal.int 5)).1.food_reserve
      = 0 := by
  decide

/-- C8 counterexample: on an agent whose `generation` is set to the
nonzero value 5, assigning the invalid value -1 fails with `ValueError`
(ValueKind), not with `RuntimeError` (StateKind): the range check runs
before the "already set" check. -/
theorem second_generation_set_not_always_statekind :
    (Agent.initP "Agent" (PyVal.int 2) PyVal.none (PyVal.int 5)
      (PyVal.float 1) PyVal.none PyVal.none []).2 = Option.none ∧
    (Agent.initP "Agent" (PyVal.int 2) PyVal.none (PyVal.int 5)
      (PyVal.float 1) PyVal.none PyVal.none []).1.generation = some 5 ∧
    (set_generation (Agent.initP "Agent" (PyVal.int 2) PyVal.none
      (PyVal.int 5) (PyVal.float 1) PyVal.none PyVal.none []).1
      (PyVal.int (-1))).2 = some Err.valueError ∧
    ¬ Err.valueError = Err.runtimeError := by
  decide

/-- C3 (amended): once `max_food_reserve` holds a nonzero (truthy)
value, every further assignment fails and leaves the agent unchanged,
but the error kind depends on the new value: `TypeError` (TypeKind) for
non-numeric values, `ValueError` (ValueKind) for numeric values below
the current `food_reserve`, and only otherwise `RuntimeError`
(StateKind, "already set") — the type and range checks run before the
"already set" check. -/
theorem max_already_set_rejects (a : AgentState) (v : PyVal)
    (h : truthyNum a.max_food_reserve = true) :
    (set_max_food_reserve a v).1 = a ∧
    (set_max_food_reserve a v).2 = some (match toNum v with
      | Option.none => Err.typeError
      | some q =>
        if q < a.food_reserve then Err.valueError else Err.runtimeError) := by
  unfold set_max_food_reserve set_max_food_reserveNum
  cases htn : toNum v with
  | none => exact ⟨rfl, rfl⟩
  | some q =>
    simp only
    by_cases hq : q < a.food_reserve
    · simp [hq]
    · simp [hq, h]

/-- C3 witness: a wrong-type second assignment on an agent with the
ceiling already set to 5 leaves the agent unchanged and raises
`TypeError`. -/
theorem max_already_set_rejects_w :
    (set_max_food_reserve
      ({ food_reserve := 2, max_food_reserve := some 5,
         generation := Option.none, p_breed := 1, kin := some "Agent",
         kwargs := [], memory := some defaultMemory } : AgentState)
      (PyVal.str "x")).1 =
      ({ food_reserve := 2, max_food_reserve := some 5,
         generation := Option.none, p_breed := 1, kin := some "Agent",
         kwargs := [], memory := some defaultMemory } : AgentState) ∧
    (set_max_food_reserve
      ({ food_reserve := 2, max_food_reserve := some 5,
         generation := Option.none, p_breed := 1, kin := some "Agent",
         kwargs := [], memory := some defaultMemory } : AgentState)
      (PyVal.str "x")).2 = some Err.typeError :=
  max_already_set_rejects _ (PyVal.str "x") (by decide)

/-- C8 (amended): once `generation` holds a nonzero value, any further
assignment fails and leaves the agent unchanged — with `RuntimeError`
(StateKind, "already set") exactly for valid non-negative integers,
`TypeError` for non-integers and `ValueError` for negative integers,
since those checks run first; and after `generation` has been set to 0
(falsy, so treated as unset), an assignment of any valid non-negative
integer succeeds and overwrites it. -/
theorem generation_write_once_quirk (a : AgentState) (v : PyVal) :
    (truthyGen a.generation = true →
      (set_generation a v).1 = a ∧
      (set_generation a v).2 = some (match toInt v with
        | Option.none => Err.typeError
        | some n => if n < 0 then Err.valueError else Err.runtimeError)) ∧
    (a.generation = some 0 → ∀ n : Int, toInt v = some n → 0 ≤ n →
      set_generation a v = ({ a with generation := some n }, Option.none)) := by
  constructor
  · intro h
    unfold set_generation set_generationNum
    cases htn : toInt v with
    | none => exact ⟨rfl, rfl⟩
    | some n =>
      simp only
      by_cases hn : n < 0
      · simp [hn]
      · simp [hn, h]
  · intro h0 n htn hn
    unfold set_generation set_generationNum
    simp [htn, not_lt.mpr hn, h0, truthyGen]

/-- C8 witness: on a generation-5 agent, assigning 7 raises
`RuntimeError` and changes nothing; on a generation-0 agent the same
assignment succeeds and overwrites. -/
theorem generation_write_once_quirk_w :
    (set_generation
      ({ food_reserve := 2, max_food_reserve := Option.none,
         generation := some 5, p_breed := 1, kin := some "Agent",
         kwargs := [], memory := some defaultMemory } : AgentState)
      (PyVal.int 7)).1 =
      ({ food_reserve := 2, max_food_reserve := Option.none,
         generation := some 5, p_breed := 1, kin := some "Agent",
         kwargs := [], memory := some defaultMemory } : AgentState) ∧
    (set_generation
      ({ food_reserve := 2, max_food_reserve := Option.none,
         generation := some 5, p_breed := 1, kin := some "Agent",
         kwargs := [], memory := some defaultMemory } : AgentState)
      (PyVal.int 7)).2 = some Err.runtimeError ∧
    set_generation
      ({ food_reserve := 2, max_food_reserve := Option.none,
         generation := some 0, p_breed := 1, kin := some "Agent",
         kwargs := [], memory := some defaultMemory } : AgentState)
      (PyVal.int 7) =
      (({ food_reserve := 2, max_food_reserve := Option.none,
          generation := some 7, p_breed := 1, kin := some "Agent",
          kwargs := [], memory := some defaultMemory } : AgentState),
       Option.none) :=
  ⟨((generation_write_once_quirk _ (PyVal.int 7)).1 (by decide)).1,
   ((generation_write_once_quirk _ (PyVal.int 7)).1 (by decide)).2,
   (generation_write_once_quirk _ (PyVal.int 7)).2 rfl 7 rfl (by decide)⟩

/-- C5 (amended): on an agent whose `max_food_reserve` is set to a
nonzero value `m` (every reachable ceiling is also non-negative),
assigning a numeric value above `m` to `food_reserve` succeeds and
stores exactly `m` (clamping), and assigning a non-negative numeric
value at most `m` stores the value unchanged.  (When the ceiling was set
to 0 the clamp is skipped, hence the nonzero hypothesis.) -/
theorem food_reserve_clamps_at_nonzero_ceiling (a : AgentState)
    (v : PyVal) (q m : ℚ) (hv : toNum v = some q)
    (hm : a.max_food_reserve = some m) (hm0 : 0 ≤ m) (hmz : m ≠ 0) :
    (m < q →
      set_food_reserve a v = ({ a with food_reserve := m }, Option.none)) ∧
    (0 ≤ q → q ≤ m →
      set_food_reserve a v = ({ a with food_reserve := q }, Option.none)) := by
  constructor
  · intro hlt
    have hq0 : ¬ q < 0 := not_lt.mpr (le_trans hm0 (le_of_lt hlt))
    unfold set_food_reserve set_food_reserveNum
    simp [hv, hq0, hm, hmz, le_of_lt hlt]
  · intro hq0 hle
    unfold set_food_reserve set_food_reserveNum
    rcases eq_or_lt_of_le hle with heq | hlt
    · subst heq
      simp [hv, not_lt.mpr hq0, hm, hmz]
    · simp [hv, not_lt.mpr hq0, hm, hmz, not_le.mpr hlt]

/-- C5 witness: with ceiling 4 and reserve 1, assigning 9 stores 4 and
assigning 3 stores 3. -/
theorem food_reserve_clamps_at_nonzero_ceiling_w :
    set_food_reserve
      ({ food_reserve := 1, max_food_reserve := some 4,
         generation := Option.none, p_breed := 1, kin := some "Agent",
         kwargs := [], memory := some defaultMemory } : AgentState)
      (PyVal.int 9) =
      (({ food_reserve := 4, max_food_reserve := some 4,
          generation := Option.none, p_breed := 1, kin := some "Agent",
          kwargs := [], memory := some defaultMemory } : AgentState),
       Option.none) ∧
    set_food_reserve
      ({ food_reserve := 1, max_food_reserve := some 4,
         generation := Option.none, p_breed := 1, kin := some "Agent",
         kwargs := [], memory := some defaultMemory } : AgentState)
      (PyVal.int 3) =
      (({ food_reserve := 3, max_food_reserve := some 4,
          generation := Option.none, p_breed := 1, kin := some "Agent",
          kwargs := [], memory := some defaultMemory } : AgentState),
       Option.none) :=
  ⟨(food_reserve_clamps_at_nonzero_ceiling _ (PyVal.int 9) 9 4 (by decide)
      rfl (by decide) (by decide)).1 (by decide),
   (food_reserve_clamps_at_nonzero_ceiling _ (PyVal.int 3) 3 4 (by decide)
      rfl (by decide) (by decide)).2 (by decide) (by decide)⟩

/-- The `food_reserve` setter is atomic: on success only the
`food_reserve` slot changes, on a raise nothing changes. -/
theorem set_food_reserve_atomic (a : AgentState) (v : PyVal) :
    SetterAtomic (set_food_reserve a v) a
      (fun b => ∃ q, b = { a with food_reserve := q }) := by
  unfold set_food_reserve set_food_reserveNum
  cases v <;> simp only [toNum] <;> repeat' split
  all_goals first | rfl | exact ⟨_, rfl⟩

/-- The `max_food_reserve` setter is atomic. -/
theorem set_max_food_reserve_atomic (a : AgentState) (v : PyVal) :
    SetterAtomic (set_max_food_reserve a v) a
      (fun b => ∃ q, b = { a with max_food_reserve := some q }) := by
  unfold set_max_food_reserve set_max_food_reserveNum
  cases v <;> simp only [toNum] <;> repeat' split
  all_goals first | rfl | exact ⟨_, rfl⟩

/-- The `generation` setter is atomic. -/
theorem set_generation_atomic (a : AgentState) (v : PyVal) :
    SetterAtomic (set_generation a v) a
      (fun b => ∃ n, b = { a with generation := some n }) := by
  unfold set_generation set_generationNum
  cases v <;> simp only [toInt] <;> repeat' split
  all_goals first | rfl | exact ⟨_, rfl⟩

/-- The `p_breed` setter is atomic. -/
theorem set_p_breed_atomic (a : AgentState) (v : PyVal) :
    SetterAtomic (set_p_breed a v) a
      (fun b => ∃ q, b = { a with p_breed := q }) := by
  unfold set_p_breed set_p_breedNum
  cases v <;> repeat' split
  all_goals first | rfl | exact ⟨_, rfl⟩

/-- The `kin` setter is atomic. -/
theorem set_kin_atomic (a : AgentState) (v : PyVal) :
    SetterAtomic (set_kin a v) a
      (fun b => ∃ s, b = { a with kin := some s }) := by
  unfold set_kin
  cases v <;> first | rfl | exact ⟨_, rfl⟩

/-- The `memory` setter is atomic. -/
theorem set_memory_atomic (a : AgentState) (v : PyVal) :
    SetterAtomic (set_memory a v) a
      (fun b => ∃ t, b = { a with memory := some t }) := by
  unfold set_memory
  repeat' split
  all_goals first | rfl | exact ⟨_, rfl⟩

/-- The `p_eat` setter is atomic. -/
theorem set_p_eat_atomic (p : PredatorState) (v : PyVal) :
    SetterAtomic (set_p_eat p v) p
      (fun b => ∃ q, b = { p with p_eat := q }) := by
  unfold set_p_eat set_p_eatNum
  cases v <;> repeat' split
  all_goals first | rfl | exact ⟨_, rfl⟩

/-- The `p_flee` setter is atomic. -/
theorem set_p_flee_atomic (p : PreyState) (v : PyVal) :
    SetterAtomic (set_p_flee p v) p
      (fun b => ∃ q, b = { p with p_flee := q }) := by
  unfold set_p_flee set_p_fleeNum
  cases v <;> repeat' split
  all_goals first | rfl | exact ⟨_, rfl⟩

/-- The `got_eaten` setter is atomic. -/
theorem set_got_eaten_atomic (p : PreyState) (v : PyVal) :
    SetterAtomic (set_got_eaten p v) p
      (fun b => ∃ g, b = { p with got_eaten := g }) := by
  unfold set_got_eaten
  cases v <;> first | rfl | exact ⟨_, rfl⟩

/-- The `orient` setter of `OrientedPredator` is atomic. -/
theorem set_orient_predator_atomic (o : OrientedPredatorState) (v : PyVal)
    (c1 : Fin 3) (c2 : Fin 2) (sw : Bool) :
    SetterAtomic (OrientedPredator.set_orient o v c1 c2 sw) o
      (fun b => ∃ t, b = { o with orient := t }) := by
  unfold OrientedPredator.set_orient
  cases v <;> repeat' split
  all_goals first | rfl | exact ⟨_, rfl⟩

/-- The `orient` setter of `OrientedPrey` is atomic. -/
theorem set_orient_prey_atomic (o : OrientedPreyState) (v : PyVal)
    (c1 : Fin 3) (c2 : Fin 2) (sw : Bool) :
    SetterAtomic (OrientedPrey.set_orient o v c1 c2 sw) o
      (fun b => ∃ t, b = { o with orient := t }) := by
  unfold OrientedPrey.set_orient
  cases v <;> repeat' split
  all_goals first | rfl | exact ⟨_, rfl⟩

/-- C6: every validated-field setter (`food_reserve`,
`max_food_reserve`, `generation`, `p_breed`, `kin`, `memory`, `p_eat`,
`p_flee`, `got_eaten`, `orient`) is atomic: a write either succeeds and
fully replaces exactly the target field, leaving every other field of
the instance as it was, or raises an error and leaves the whole instance
exactly as it was before the write. -/
theorem validated_setters_atomic :
    (∀ (a : AgentState) (v : PyVal),
      SetterAtomic (set_food_reserve a v) a
        (fun b => ∃ q, b = { a with food_reserve := q })) ∧
    (∀ (a : AgentState) (v : PyVal),
      SetterAtomic (set_max_food_reserve a v) a
        (fun b => ∃ q, b = { a with max_food_reserve := some q })) ∧
    (∀ (a : AgentState) (v : PyVal),
      SetterAtomic (set_generation a v) a
        (fun b => ∃ n, b = { a with generation := some n })) ∧
    (∀ (a : AgentState) (v : PyVal),
      SetterAtomic (set_p_breed a v) a
        (fun b => ∃ q, b = { a with p_breed := q })) ∧
    (∀ (a : AgentState) (v : PyVal),
      SetterAtomic (set_kin a v) a
        (fun b => ∃ s, b = { a with kin := some s })) ∧
    (∀ (a : AgentState) (v : PyVal),
      SetterAtomic (set_memory a v) a
        (fun b => ∃ t, b = { a with memory := some t })) ∧
    (∀ (p : PredatorState) (v : PyVal),
      SetterAtomic (set_p_eat p v) p
        (fun b => ∃ q, b = { p with p_eat := q })) ∧
    (∀ (p : PreyState) (v : PyVal),
      SetterAtomic (set_p_flee p v) p
        (fun b => ∃ q, b = { p with p_flee := q })) ∧
    (∀ (p : PreyState) (v : PyVal),
      SetterAtomic (set_got_eaten p v) p
        (fun b => ∃ g, b = { p with got_eaten := g })) ∧
    (∀ (o : OrientedPredatorState) (v : PyVal) (c1 : Fin 3) (c2 : Fin 2)
        (sw : Bool),
      SetterAtomic (OrientedPredator.set_orient o v c1 c2 sw) o
        (fun b => ∃ t, b = { o with orient := t })) ∧
    (∀ (o : OrientedPreyState) (v : PyVal) (c1 : Fin 3) (c2 : Fin 2)
        (sw : Bool),
      SetterAtomic (OrientedPrey.set_orient o v c1 c2 sw) o
        (fun b => ∃ t, b = { o with orient := t })) :=
  ⟨set_food_reserve_atomic, set_max_food_reserve_atomic,
   set_generation_atomic, set_p_breed_atomic, set_kin_atomic,
   set_memory_atomic, set_p_eat_atomic, set_p_flee_atomic,
   set_got_eaten_atomic, set_orient_predator_atomic,
   set_orient_prey_atomic⟩

/-- The `food_reserve` setter core preserves the food invariant. -/
theorem foodInv_set_food_reserveNum (a : AgentState) (q : ℚ)
    (h : FoodInv a) : FoodInv (set_food_reserveNum a q).1 := by
  by_cases hq : q < 0
  · simpa [set_food_reserveNum, hq] using h
  · have hq0 : 0 ≤ q := not_lt.mp hq
    cases hm : a.max_food_reserve with
    | none =>
      simp [set_food_reserveNum, hq, hm, FoodInv, hq0]
    | some m =>
      by_cases hm0 : m = 0
      · subst hm0
        simp [set_food_reserveNum, hq, hm, FoodInv, hq0]
      · by_cases hle : m ≤ q
        · have h0m : 0 ≤ m := (h.2 m hm).1
          simp [set_food_reserveNum, hq, hm, hm0, hle, FoodInv, h0m]
        · have h0m : 0 ≤ m := (h.2 m hm).1
          have : q ≤ m := le_of_lt (not_le.mp hle)
          simp [set_food_reserveNum, hq, hm, hm0, hle, FoodInv, hq0, h0m,
            this]

/-- The `max_food_reserve` setter core preserves the food invariant. -/
theorem foodInv_set_max_food_reserveNum (a : AgentState) (q : ℚ)
    (h : FoodInv a) : FoodInv (set_max_food_reserveNum a q).1 := by
  by_cases hq : q < a.food_reserve
  · simpa [set_max_food_reserveNum, hq] using h
  · cases ht : truthyNum a.max_food_reserve with
    | true => simpa [set_max_food_reserveNum, hq, ht] using h
    | false =>
      have hfq : a.food_reserve ≤ q := not_lt.mp hq
      have h0q : 0 ≤ q := le_trans h.1 hfq
      simp [set_max_food_reserveNum, hq, ht, FoodInv, h.1, h0q, hfq]

/-- Setters that touch neither `food_reserve` nor `max_food_reserve`
preserve the food invariant: `generation`. -/
theorem foodInv_set_generationNum (a : AgentState) (n : Int)
    (h : FoodInv a) : FoodInv (set_generationNum a n).1 := by
  unfold set_generationNum
  repeat' split
  all_goals simpa [FoodInv] using h

/-- `p_breed` writes preserve the food invariant. -/
theorem foodInv_set_p_breedNum (a : AgentState) (q : ℚ)
    (h : FoodInv a) : FoodInv (set_p_breedNum a q).1 := by
  unfold set_p_breedNum
  repeat' split
  all_goals simpa [FoodInv] using h

/-- `kin` writes preserve the food invariant. -/
theorem foodInv_set_kin (a : AgentState) (v : PyVal)
    (h : FoodInv a) : FoodInv (set_kin a v).1 := by
  unfold set_kin
  cases v <;> simpa [FoodInv] using h

/-- `memory` writes preserve the food invariant. -/
theorem foodInv_set_memory (a : AgentState) (v : PyVal)
    (h : FoodInv a) : FoodInv (set_memory a v).1 := by
  unfold set_memory
  repeat' split
  all_goals simpa [FoodInv] using h

/-- The PyVal-level setters preserve the food invariant. -/
theorem foodInv_applyOp (a : AgentState) (op : AgentOp)
    (h : FoodInv a) : FoodInv (applyOp a op).1 := by
  cases op with
  | setFood v =>
    simp only [applyOp, set_food_reserve]
    cases htn : toNum v with
    | none => simpa [htn] using h
    | some q => simpa [htn] using foodInv_set_food_reserveNum a q h
  | setMax v =>
    simp only [applyOp, set_max_food_reserve]
    cases htn : toNum v with
    | none => simpa [htn] using h
    | some q => simpa [htn] using foodInv_set_max_food_reserveNum a q h
  | setGen v =>
    simp only [applyOp, set_generation]
    cases htn : toInt v with
    | none => simpa [htn] using h
    | some n => simpa [htn] using foodInv_set_generationNum a n h
  | setPBreed v =>
    simp only [applyOp, set_p_breed]
    cases v <;> first
      | exact h
      | exact foodInv_set_p_breedNum a _ h
  | setKin v => exact foodInv_set_kin a v h
  | setMemory v => exact foodInv_set_memory a v h

/-- Sequencing preserves the food invariant. -/
theorem foodInv_pseq (r : AgentState × Option Err)
    (f : AgentState → AgentState × Option Err) (hr : FoodInv r.1)
    (hf : ∀ a, FoodInv a → FoodInv (f a).1) : FoodInv (pseq r f).1 := by
  rcases r with ⟨a, e⟩
  cases e with
  | none => exact hf a hr
  | some e => exact hr

/-- Every run of the base initializer ends (even at a raise site) in a
state satisfying the food invariant. -/
theorem foodInv_initP (cn : String) (fr mfr gen pb kin mem : PyVal)
    (kw : List (String × PyVal)) :
    FoodInv (Agent.initP cn fr mfr gen pb kin mem kw).1 := by
  unfold Agent.initP
  have h0 : FoodInv
      ({ food_reserve := 0, max_food_reserve := Option.none,
         generation := Option.none, p_breed := 1, kin := Option.none,
         kwargs := kw, memory := Option.none } : AgentState) := by
    refine ⟨le_refl 0, fun m hm => ?_⟩
    exact Option.noConfusion hm
  refine foodInv_pseq _ _ (foodInv_pseq _ _ (foodInv_pseq _ _
    (foodInv_pseq _ _ (foodInv_pseq _ _ ?_ ?_) ?_) ?_) ?_) ?_
  · exact foodInv_applyOp _ (AgentOp.setFood fr) h0
  · exact fun a ha => foodInv_applyOp a (AgentOp.setPBreed pb) ha
  · intro a ha
    by_cases hk : truthy kin
    · simpa [hk] using foodInv_set_kin a kin ha
    · simpa [hk] using foodInv_set_kin a (PyVal.str cn) ha
  · intro a ha
    by_cases hk : truthy mfr
    · simpa [hk] using foodInv_applyOp a (AgentOp.setMax mfr) ha
    · simpa [hk] using ha
  · intro a ha
    by_cases hk : isNone gen
    · simpa [hk] using ha
    · simpa [hk] using foodInv_applyOp a (AgentOp.setGen gen) ha
  · intro a ha
    by_cases hk : isNone mem
    · simpa [hk] using foodInv_set_memory a defaultMemory ha
    · simpa [hk] using foodInv_set_memory a mem ha

/-- Every run of `Agent.procreate` ends in a state satisfying the food
invariant (the offspring is built by the initializer followed by setter
writes). -/
theorem foodInv_procreateP (a : AgentState) (fr : PyVal) :
    FoodInv (Agent.procreateP a fr).1 := by
  unfold Agent.procreateP
  refine foodInv_pseq _ _ (foodInv_pseq _ _ (foodInv_pseq _ _
    (foodInv_pseq _ _ ?_ ?_) ?_) ?_) ?_
  · exact foodInv_initP "Agent" fr PyVal.none PyVal.none (PyVal.float 1)
      PyVal.none PyVal.none []
  · intro off hoff
    cases hm : a.max_food_reserve with
    | none => simpa [hm] using hoff
    | some m => simpa [hm] using foodInv_set_max_food_reserveNum off m hoff
  · intro off hoff
    cases hg : a.generation with
    | none => simpa [hg] using hoff
    | some g => simpa [hg] using foodInv_set_generationNum off (g + 1) hoff
  · exact fun off hoff => foodInv_set_p_breedNum off a.p_breed hoff
  · intro off hoff
    exact ⟨hoff.1, hoff.2⟩

/-- C2 (amended): after any sequence of successful public operations
(construction, setter writes, procreation), `food_reserve` is
non-negative, and whenever `max_food_reserve` is set to a nonzero value
`m`, `food_reserve ≤ m` holds.  (The original claim fails when
`max_food_reserve` has been set to 0: that ceiling is falsy, the clamp
is skipped, and `food_reserve` may later exceed it — see the
counterexample.) -/
theorem reachable_food_invariant (a : AgentState) (h : Reachable a) :
    0 ≤ a.food_reserve ∧
      ∀ m, a.max_food_reserve = some m → m ≠ 0 → a.food_reserve ≤ m := by
  have hInv : FoodInv a := by
    induction h with
    | init cn fr mfr gen pb kin mem kw hok => exact foodInv_initP cn fr mfr gen pb kin mem kw
    | step op hr hok ih => exact foodInv_applyOp _ op ih
    | proc fr hr hok ih => exact foodInv_procreateP _ fr
  exact ⟨hInv.1, fun m hm => (hInv.2 m hm).2⟩

/-- C2 witness: the invariant at a freshly constructed agent with
reserve 3 and ceiling 9. -/
theorem reachable_food_invariant_w :
    0 ≤ (Agent.initP "Agent" (PyVal.int 3) (PyVal.int 9) PyVal.none
      (PyVal.float 1) PyVal.none PyVal.none []).1.food_reserve ∧
    ∀ m, (Agent.initP "Agent" (PyVal.int 3) (PyVal.int 9) PyVal.none
      (PyVal.float 1) PyVal.none PyVal.none []).1.max_food_reserve = some m →
      m ≠ 0 →
      (Agent.initP "Agent" (PyVal.int 3) (PyVal.int 9) PyVal.none
        (PyVal.float 1) PyVal.none PyVal.none []).1.food_reserve ≤ m :=
  reachable_food_invariant _
    (Reachable.init "Agent" (PyVal.int 3) (PyVal.int 9) PyVal.none
      (PyVal.float 1) PyVal.none PyVal.none [] (by decide))

/-- Evaluation of the base initializer in the configuration used by
`_procreate_empty` and by the subclass initializers: a numeric
non-negative `food_reserve`, default `p_breed = 1.0`, no
`max_food_reserve`, no `generation`, no `mem`, and a `kin` argument that
is either `None` (plain `Agent`) or the class name itself (subclasses):
the result is the fresh state with `food_reserve = v`, `p_breed = 1`,
`kin` the class name and the default empty memory. -/
theorem initP_eval (cn : String) (fr : PyVal) (v : ℚ)
    (kw : List (String × PyVal)) (kinArg : PyVal) (hfr : toNum fr = some v)
    (hv : 0 ≤ v) (hkin : kinArg = PyVal.none ∨ kinArg = PyVal.str cn) :
    Agent.initP cn fr PyVal.none PyVal.none (PyVal.float 1) kinArg
      PyVal.none kw =
      (({ food_reserve := v, max_food_reserve := Option.none,
          generation := Option.none, p_breed := 1, kin := some cn,
          kwargs := kw, memory := some defaultMemory } : AgentState),
       Option.none) := by
  have hp0 : ¬ (1 : ℚ) < 0 := by norm_num
  have hp1 : ¬ (1 : ℚ) < 1 := by norm_num
  rcases hkin with hk | hk <;> subst hk <;>
    · by_cases hcn : truthy (PyVal.str cn) = true
      all_goals
        simp [Agent.initP, pseq, set_food_reserve, hfr, set_food_reserveNum,
          not_lt.mpr hv, set_p_breed, set_p_breedNum, hp0, hp1, truthy, hcn,
          set_kin, isNone, set_memory, isTuple, defaultMemory]

/-- C1 (amended): for each name in `HEIRSHIP`, `procreate` copies the
parent's current value to the offspring if and only if that value
`is not None` — not "non-empty/non-zero": a falsy-but-set value such as
`p_breed == 0.0`, `generation == 0` or `max_food_reserve == 0` is still
copied.  `generation` is copied as the parent's value plus 1, `p_breed`
and `_kwargs` are never `None` on an instance and are always copied, and
`max_food_reserve`/`generation` are copied exactly when set.  (The
hypotheses are the conditions under which the inherited writes succeed:
a valid numeric `food_reserve` argument compatible with the parent's
ceiling, and parent field values that their own setters once accepted.) -/
theorem procreate_copies_not_none (a : AgentState) (fr : PyVal) (v : ℚ)
    (hfr : toNum fr = some v) (hv : 0 ≤ v)
    (hmax : ∀ m, a.max_food_reserve = some m → v ≤ m)
    (hpb0 : 0 ≤ a.p_breed) (hpb1 : a.p_breed ≤ 1)
    (hgen : ∀ g, a.generation = some g → 0 ≤ g) :
    ∃ off, Agent.procreate a fr = Except.ok off ∧
      off.food_reserve = v ∧
      off.max_food_reserve = a.max_food_reserve ∧
      off.generation = Option.map (fun g => g + 1) a.generation ∧
      off.p_breed = a.p_breed ∧
      off.kwargs = a.kwargs ∧
      off.kin = some "Agent" ∧
      off.memory = some defaultMemory := by
  have hpb : ¬ (a.p_breed < 0 ∨ 1 < a.p_breed) :=
    not_or.mpr ⟨not_lt.mpr hpb0, not_lt.mpr hpb1⟩
  have hrun : Agent.procreateP a fr =
      (({ food_reserve := v, max_food_reserve := a.max_food_reserve,
          generation := Option.map (fun g => g + 1) a.generation,
          p_breed := a.p_breed, kin := some "Agent", kwargs := a.kwargs,
          memory := some defaultMemory } : AgentState), Option.none) := by
    unfold Agent.procreateP
    rw [initP_eval "Agent" fr v [] PyVal.none hfr hv (Or.inl rfl)]
    cases hm : a.max_food_reserve with
    | none =>
      cases hg : a.generation with
      | none => simp [pseq, set_p_breedNum, hpb]
      | some g =>
        have hg1 : ¬ (g + 1 < (0 : Int)) := by
          have := hgen g hg
          omega
        simp [pseq, set_generationNum, hg1, truthyGen, set_p_breedNum, hpb]
    | some m =>
      have hm1 : ¬ (m < v) := not_lt.mpr (hmax m hm)
      cases hg : a.generation with
      | none =>
        simp [pseq, set_max_food_reserveNum, hm1, truthyNum,
          set_p_breedNum, hpb]
      | some g =>
        have hg1 : ¬ (g + 1 < (0 : Int)) := by
          have := hgen g hg
          omega
        simp [pseq, set_max_food_reserveNum, hm1, truthyNum,
          set_generationNum, hg1, truthyGen, set_p_breedNum, hpb]
  refine ⟨{ food_reserve := v, max_food_reserve := a.max_food_reserve,
            generation := Option.map (fun g => g + 1) a.generation,
            p_breed := a.p_breed, kin := some "Agent", kwargs := a.kwargs,
            memory := some defaultMemory },
          ?_, rfl, rfl, rfl, rfl, rfl, rfl, rfl⟩
  unfold Agent.procreate
  rw [hrun]
  rfl

/-- C1 witness: a parent with ceiling 8, generation 2, the falsy
`p_breed` 0.0 and a kwargs entry procreates with `food_reserve=4`; the
offspring carries ceiling 8, generation 3, the copied `p_breed` 0.0, the
kwargs, kin `"Agent"`, reserve 4 and the default memory. -/
theorem procreate_copies_not_none_w :
    ∃ off, Agent.procreate
      ({ food_reserve := 5, max_food_reserve := some 8,
         generation := some 2, p_breed := 0, kin := some "Agent",
         kwargs := [("tag", PyVal.int 1)],
         memory := some defaultMemory } : AgentState)
      (PyVal.int 4) = Except.ok off ∧
      off.food_reserve = 4 ∧
      off.max_food_reserve = some 8 ∧
      off.generation = Option.map (fun g => g + 1) (some 2) ∧
      off.p_breed = 0 ∧
      off.kwargs = [("tag", PyVal.int 1)] ∧
      off.kin = some "Agent" ∧
      off.memory = some defaultMemory :=
  procreate_copies_not_none _ (PyVal.int 4) 4 (by decide) (by decide)
    (fun m hm => by
      simp only [Option.some.injEq] at hm
      rw [← hm]
      decide)
    (by decide) (by decide)
    (fun g hg => by
      simp only [Option.some.injEq] at hg
      omega)

/-- C4: procreating a `Predator` with `generation = 3`, a set ceiling
`M` and a valid numeric `food_reserve` argument `v` (non-negative and
compatible with the inherited ceiling, so that every inherited write
succeeds) returns an offspring with `generation = 4`, the parent's
`p_eat`, the parent's `max_food_reserve`, kin `"Predator"` and
`food_reserve` exactly `v` (not the parent's reserve).  The embedding is
purely functional, so the call leaves the parent state untouched by
construction. -/
theorem predator_procreate_gen3 (p : PredatorState) (w : PyVal) (v M : ℚ)
    (hw : toNum w = some v) (hg : p.base.generation = some 3)
    (hM : p.base.max_food_reserve = some M) (hv0 : 0 ≤ v) (hvM : v ≤ M)
    (hpb0 : 0 ≤ p.base.p_breed) (hpb1 : p.base.p_breed ≤ 1)
    (hpe0 : 0 ≤ p.p_eat) (hpe1 : p.p_eat ≤ 1) :
    ∃ off, Predator.procreate p w = Except.ok off ∧
      off.base.generation = some 4 ∧
      off.p_eat = p.p_eat ∧
      off.base.max_food_reserve = some M ∧
      off.base.kin = some "Predator" ∧
      off.base.food_reserve = v := by
  have hpb : ¬ (p.base.p_breed < 0 ∨ 1 < p.base.p_breed) :=
    not_or.mpr ⟨not_lt.mpr hpb0, not_lt.mpr hpb1⟩
  have hpe : ¬ (p.p_eat < 0 ∨ 1 < p.p_eat) :=
    not_or.mpr ⟨not_lt.mpr hpe0, not_lt.mpr hpe1⟩
  have hM1 : ¬ (M < v) := not_lt.mpr hvM
  have h10 : ¬ ((1 : ℚ) < 0 ∨ (1 : ℚ) < 1) := by norm_num
  have hinit : Predator.initCore "Predator" w (PyVal.float 1) PyVal.none
      (PyVal.float 1) PyVal.none [] =
      Except.ok
        { base :=
            { food_reserve := v,
              max_food_reserve := Option.none, generation := Option.none,
              p_breed := 1, kin := some "Predator", kwargs := [],
              memory := some defaultMemory },
          p_eat := 1 } := by
    unfold Predator.initCore
    rw [if_neg (by decide)]
    simp only [List.lookup_nil, Option.getD_none, List.filter_nil]
    rw [initP_eval "Predator" w v [] (PyVal.str "Predator") hw hv0
      (Or.inr rfl)]
    simp [toExcept, set_p_eat, set_p_eatNum, h10,
      (show ¬ (1 : ℚ) < 0 by norm_num), (show ¬ (1 : ℚ) < 1 by norm_num)]
  refine
    ⟨{ base :=
         { food_reserve := v, max_food_reserve := some M,
           generation := some 4, p_breed := p.base.p_breed,
           kin := some "Predator", kwargs := p.base.kwargs,
           memory := some defaultMemory },
       p_eat := p.p_eat },
     ?_, rfl, rfl, rfl, rfl, rfl⟩
  unfold Predator.procreate
  rw [hinit]
  simp [hM, hg, pseq, onBase, set_max_food_reserveNum, hM1, truthyNum,
    set_generationNum, truthyGen, set_p_breedNum, hpb, set_p_eatNum, hpe,
    toExcept, (show ((3 : Int) + 1) = 4 by decide),
    (show ¬ ((4 : Int) < 0) by decide)]

/-- C4 witness: a concrete generation-3 predator with ceiling 8,
`p_breed` 1.0 and `p_eat` 1.0 procreating with `food_reserve=2`. -/
theorem predator_procreate_gen3_w :
    ∃ off, Predator.procreate
      ({ base :=
           { food_reserve := 5, max_food_reserve := some 8,
             generation := some 3, p_breed := 1, kin := some "Predator",
             kwargs := [], memory := some defaultMemory },
         p_eat := 1 } : PredatorState)
      (PyVal.int 2) = Except.ok off ∧
      off.base.generation = some 4 ∧
      off.p_eat = 1 ∧
      off.base.max_food_reserve = some 8 ∧
      off.base.kin = some "Predator" ∧
      off.base.food_reserve = 2 :=
  predator_procreate_gen3 _ (PyVal.int 2) 2 8 (by decide) rfl rfl
    (by decide) (by decide) (by decide) (by decide) (by decide) (by decide)
